import Mathlib

/-!
Shallow embedding of the token-validation backend (`src/main.py`).

The program is a FastAPI service whose core is the dependency
`validate_microsoft_token`: it reads the tenant/client configuration, parses
the unverified JWT header, fetches the tenant JWKS document, resolves the
signing key by `kid`, verifies the signature via `authlib.jose.jwt.decode`,
and then checks the `iss` and `aud` claims against the configuration.
Failures surface as `HTTPException` values (status 500 for missing
configuration, 401 otherwise).

Network I/O and cryptography are abstracted: the JWKS fetch result is an
input of the pipeline (`Except String (List JWK)`, the error case standing
for `requests` transport/JSON failures that the catch-all in the code turns into a
401), and signature validity of the token against the key resolved for a
given `kid` is a boolean field of the token model.  Everything that the
Python function itself does — ordering of the checks, the exact strings it
compares and the exact error payloads it builds — is translated line by
line.
-/

namespace AuthBackend

/-- The environment-derived settings dict built by `get_settings`
(`main.py` lines 57-63): `os.getenv` returns `None` when the variable is
absent, so both fields are optional. -/
structure Settings where
  tenant_id : Option String
  client_id : Option String
deriving DecidableEq, Repr

/-- Function `get_settings` (`main.py` lines 57-63): reads the two environment
variables and returns the dict.  It performs no validation and cannot fail,
so process startup never rejects a missing configuration. -/
def get_settings (azure_tenant_id azure_client_id : Option String) : Settings :=
  { tenant_id := azure_tenant_id, client_id := azure_client_id }

/-- Python truthiness test used at line 80 (`if not tenant_id or not
client_id`): a string value is falsy when it is `None` or empty. -/
def isBlank : Option String → Bool
  | none => true
  | some s => s.isEmpty

/-- The unverified JWT header returned by `pyjwt.get_unverified_header`
(line 90).  `kid` is optional: accessing `header["kid"]` on a header without
it raises `KeyError`, which the catch-all turns into a 401. -/
structure UnverifiedHeader where
  kid : Option String
  alg : String
deriving DecidableEq, Repr

/-- The decoded claim set.  The code reads `iss`, `aud` (lines 121, 133) and
the handler reads `name`, `email` (lines 181-182) with `dict.get`, so each
claim may be absent; `exp` is the expiry timestamp carried by the token. -/
structure Claims where
  iss : Option String
  aud : Option String
  exp : Option Int
  name : Option String
  email : Option String
deriving DecidableEq, Repr

/-- One entry of the JWKS `keys` array: the fields the code touches are
`kid` (line 102) and, implicitly through `JsonWebKey.import_key`, the algorithm
declared by the key. -/
structure JWK where
  kid : String
  alg : String
deriving DecidableEq, Repr

/-- Model of an incoming bearer token.  `header` is what
`pyjwt.get_unverified_header` yields (`.error` = malformed token, the
exception message); `claims` is the payload that `jwt.decode` returns when
the signature verifies; `sigOK k` abstracts whether the signature of the token
cryptographically verifies against the key whose `kid` is `k`. -/
structure TokenModel where
  header : Except String UnverifiedHeader
  claims : Claims
  sigOK : String → Bool

/-- The JWKS discovery URL built at line 86. -/
def jwks_url (tenant_id : String) : String :=
  "https://login.microsoftonline.com/" ++ tenant_id ++ "/discovery/v2.0/keys"

/-- The arguments of a `requests.get` call: the URL and the `timeout`
keyword (`none` when the keyword is not passed, i.e. the `requests` default
of no timeout). -/
structure RequestsGetCall where
  url : String
  timeout : Option Nat
deriving DecidableEq, Repr

/-- The JWKS fetch issued at line 94: `requests.get(jwks_url)` — the call
passes no `timeout` argument. -/
def jwks_fetch_call (tenant_id : String) : RequestsGetCall :=
  { url := jwks_url tenant_id, timeout := none }

/-- The key-lookup loop at lines 100-105: scan `jwks["keys"]` in order and
take the first entry whose `kid` equals the `kid` of the header (the loop
`break`s at the first match). -/
def find_key (header_kid : String) : List JWK → Option JWK
  | [] => none
  | jwk :: rest => if jwk.kid == header_kid then some jwk else find_key header_kid rest

/-- Models `authlib.jose.jwt.decode(token, key)` at line 114: verifies the
token signature against the resolved key and, on success, returns the decoded
claim set.  `decode` performs no claims validation — in particular no
expiry check; authlib only checks temporal claims when `claims.validate()`
is called, which the source never does. -/
def jose_decode (tok : TokenModel) (key : JWK) : Except String Claims :=
  if tok.sigOK key.kid then .ok tok.claims else .error "bad_signature"

/-- The v1-style expected issuer built at line 119. -/
def expected_issuer_v1 (tenant_id : String) : String :=
  "https://sts.windows.net/" ++ tenant_id ++ "/"

/-- The v2-style expected issuer built at line 120. -/
def expected_issuer_v2 (tenant_id : String) : String :=
  "https://login.microsoftonline.com/" ++ tenant_id ++ "/v2.0"

/-- The distinct `HTTPException` outcomes raised by
`validate_microsoft_token`, identified by where they are raised and the data
interpolated into their `detail` string. -/
inductive AuthError
  /-- line 81: 500 "Azure configuration missing" -/
  | configurationMissing
  /-- line 109: 401 "Invalid token key" -/
  | invalidTokenKey
  /-- line 128: 401, detail interpolates the token issuer and both expected issuers -/
  | invalidIssuer (got : Option String) (tenant_id : String)
  /-- line 138: 401, detail interpolates the token audience and the expected client id -/
  | invalidAudience (got : Option String) (client_id : String)
  /-- line 150: the catch-all wrap of any other exception as 401 -/
  | tokenValidationFailed (msg : String)
deriving DecidableEq, Repr

/-- Python f-string rendering of an optional string (`None` prints as
"None"). -/
def pyStr : Option String → String
  | none => "None"
  | some s => s

/-- The HTTP status code attached to each `HTTPException`. -/
def status_code : AuthError → Nat
  | .configurationMissing => 500
  | .invalidTokenKey => 401
  | .invalidIssuer _ _ => 401
  | .invalidAudience _ _ => 401
  | .tokenValidationFailed _ => 401

/-- The `detail` string of each `HTTPException` — this is the client-facing
response body (FastAPI serialises it as a JSON object under the key
`detail`). -/
def detail : AuthError → String
  | .configurationMissing => "Azure configuration missing"
  | .invalidTokenKey => "Invalid token key"
  | .invalidIssuer got tenant_id =>
      "Invalid token issuer. Got: " ++ pyStr got ++ ", Expected: "
        ++ expected_issuer_v1 tenant_id ++ " or " ++ expected_issuer_v2 tenant_id
  | .invalidAudience got client_id =>
      "Invalid token audience. Got: " ++ pyStr got ++ ", Expected: " ++ client_id
  | .tokenValidationFailed msg => "Token validation failed: " ++ msg

/-- Observable pipeline events, used to state which stages a validation call
reaches (the `Received → HeaderParsed → KeyResolved → SignatureVerified →
ClaimsValidated` state machine of the spec). -/
inductive Ev
  /-- the `requests.get` JWKS fetch at line 94 was issued -/
  | jwksFetched
  /-- a key with the given `kid` was matched at lines 100-105 -/
  | keyResolved (kid : String)
  /-- call to `jwt.decode` succeeded at line 114 -/
  | signatureVerified
  /-- the issuer comparison at line 127 ran -/
  | issuerChecked
  /-- the audience comparison at line 137 ran -/
  | audienceChecked
deriving DecidableEq, Repr

/-- Function `validate_microsoft_token` (`main.py` lines 66-153), translated line by
line.  Inputs: the settings, the token model, and the result of the JWKS
fetch (`.error` = transport/parse failure, which the catch-all wraps as a
401).  Output: the trace of pipeline events that occurred and either the
decoded claims (returned at line 144) or the `HTTPException` raised. -/
def validate_microsoft_token (settings : Settings) (tok : TokenModel)
    (fetchResult : Except String (List JWK)) :
    List Ev × Except AuthError Claims :=
  if isBlank settings.tenant_id || isBlank settings.client_id then
    ([], .error .configurationMissing)
  else
    let tenant_id := settings.tenant_id.getD ""
    let client_id := settings.client_id.getD ""
    match tok.header with
    | .error e => ([], .error (.tokenValidationFailed e))
    | .ok header =>
      match fetchResult with
      | .error e => ([.jwksFetched], .error (.tokenValidationFailed e))
      | .ok keys =>
        match header.kid with
        | none => ([.jwksFetched], .error (.tokenValidationFailed "KeyError: kid"))
        | some hkid =>
          match find_key hkid keys with
          | none => ([.jwksFetched], .error .invalidTokenKey)
          | some key =>
            match jose_decode tok key with
            | .error e =>
                ([.jwksFetched, .keyResolved key.kid], .error (.tokenValidationFailed e))
            | .ok claims =>
                if !(claims.iss == some (expected_issuer_v1 tenant_id)
                      || claims.iss == some (expected_issuer_v2 tenant_id)) then
                  ([.jwksFetched, .keyResolved key.kid, .signatureVerified, .issuerChecked],
                   .error (.invalidIssuer claims.iss tenant_id))
                else if claims.aud != some client_id then
                  ([.jwksFetched, .keyResolved key.kid, .signatureVerified,
                      .issuerChecked, .audienceChecked],
                   .error (.invalidAudience claims.aud client_id))
                else
                  ([.jwksFetched, .keyResolved key.kid, .signatureVerified,
                      .issuerChecked, .audienceChecked],
                   .ok claims)

/-- The `user` object of the hello-world response (`main.py` lines 34-36). -/
structure User where
  name : String
  email : String
deriving DecidableEq, Repr

/-- The hello-world response model (`main.py` lines 39-42). -/
structure HelloWorldResponse where
  message : String
  user : User
  authenticated : Bool
deriving DecidableEq, Repr

/-- Function `hello_world` (`main.py` lines 179-188): builds the response from the
validated claims, defaulting a missing `name` to "Unknown User" and a
missing `email` to "No email". -/
def hello_world (claims : Claims) : HelloWorldResponse :=
  { message := "Hello, World!"
  , user := { name := claims.name.getD "Unknown User"
            , email := claims.email.getD "No email" }
  , authenticated := true }

/-! Concrete fixtures used to exercise the pipeline on explicit inputs. -/

/-- Settings for tenant "tid" and client id "abc123". -/
def goodSettings : Settings := { tenant_id := some "tid", client_id := some "abc123" }

/-- A JWKS entry with `kid` "k1". -/
def goodKey : JWK := { kid := "k1", alg := "RS256" }

/-- An unverified header naming key "k1". -/
def goodHeader : UnverifiedHeader := { kid := some "k1", alg := "RS256" }

/-- A claim set matching `goodSettings`: v2 issuer for tenant "tid",
audience "abc123", expiry in the future. -/
def goodClaims : Claims :=
  { iss := some (expected_issuer_v2 "tid"), aud := some "abc123"
  , exp := some 1893456000, name := some "Alice", email := some "alice@example.com" }

/-- A token with a well-formed header naming key "k1", the given claim set,
and a signature that verifies against every key iff `ok` is true. -/
def mkToken (c : Claims) (ok : Bool) : TokenModel :=
  { header := .ok goodHeader, claims := c, sigOK := fun _ => ok }

/-- A fully valid token for `goodSettings`. -/
def goodToken : TokenModel := mkToken goodClaims true

/-! Helper lemma: once the configuration, header, key resolution and
signature all succeed, the pipeline is exactly the issuer/audience check. -/

/-- When the configuration is present, the header parses with a `kid` that
resolves to a key and the signature verifies, the remainder of
`validate_microsoft_token` is precisely the inlined issuer and audience
checks of lines 118-144. -/
theorem validate_reaches_claim_checks
    (settings : Settings) (tok : TokenModel) (keys : List JWK)
    (tenant_id client_id : String) (header : UnverifiedHeader)
    (hkid : String) (key : JWK)
    (ht : settings.tenant_id = some tenant_id) (htn : tenant_id.isEmpty = false)
    (hc : settings.client_id = some client_id) (hcn : client_id.isEmpty = false)
    (hh : tok.header = .ok header)
    (hk : header.kid = some hkid)
    (hfind : find_key hkid keys = some key)
    (hsig : tok.sigOK key.kid = true) :
    validate_microsoft_token settings tok (.ok keys)
      = if !(tok.claims.iss == some (expected_issuer_v1 tenant_id)
              || tok.claims.iss == some (expected_issuer_v2 tenant_id)) then
          ([.jwksFetched, .keyResolved key.kid, .signatureVerified, .issuerChecked],
           .error (.invalidIssuer tok.claims.iss tenant_id))
        else if tok.claims.aud != some client_id then
          ([.jwksFetched, .keyResolved key.kid, .signatureVerified,
              .issuerChecked, .audienceChecked],
           .error (.invalidAudience tok.claims.aud client_id))
        else
          ([.jwksFetched, .keyResolved key.kid, .signatureVerified,
              .issuerChecked, .audienceChecked],
           .ok tok.claims) := by
  unfold validate_microsoft_token
  rw [ht, hc]
  simp only [isBlank, htn, hcn, Bool.or_self, Bool.false_or, Option.getD_some,
    hh, hk, hfind, jose_decode, hsig]
  rw [if_neg Bool.false_ne_true, if_pos trivial]

/-! Further fixtures for the individual claims. -/

/-- The claim set of `goodClaims` with the expiry moved to the distant past
(Unix time 0). -/
def expiredClaims : Claims := { goodClaims with exp := some 0 }

/-- A token whose signature verifies and whose issuer/audience match
`goodSettings`, but whose expiry lies in the past. -/
def expiredToken : TokenModel := mkToken expiredClaims true

/-- A token identical to `goodToken` except that its signature does not
verify against any key (e.g. one bit of the signature segment flipped). -/
def tamperedToken : TokenModel := mkToken goodClaims false

/-- An unverified header naming a `kid` that no JWKS entry carries. -/
def unknownKidHeader : UnverifiedHeader := { kid := some "nope", alg := "RS256" }

/-- A token referencing the unknown key id "nope". -/
def unknownKidToken : TokenModel :=
  { header := .ok unknownKidHeader, claims := goodClaims, sigOK := fun _ => true }

/-- A token whose issuer claim is a foreign URL, otherwise valid for
`goodSettings`. -/
def evilIssuerToken : TokenModel :=
  mkToken { goodClaims with iss := some "https://evil.example/" } true

/-- Claim C1: the claim says a token whose expiry lies in the past is
rejected with `ExpiredTokenError` even when signature, issuer and audience
all match, the pipeline itself enforcing expiry.  The code never checks the
`exp` claim (`jwt.decode` alone does not, and `claims.validate()` is never
called): this theorem evaluates the pipeline on a token with `exp = 0`,
valid signature and matching issuer/audience, and it is accepted — the
claims are returned, for any current time, since the pipeline takes no
clock input at all. -/
theorem expired_token_is_accepted :
    expiredClaims.exp = some 0
    ∧ expiredToken.sigOK goodKey.kid = true
    ∧ expiredClaims.iss = some (expected_issuer_v2 "tid")
    ∧ expiredClaims.aud = goodSettings.client_id
    ∧ (validate_microsoft_token goodSettings expiredToken (.ok [goodKey])).2
        = .ok expiredClaims :=
  ⟨rfl, rfl, rfl, rfl, rfl⟩

/-- Claim C2: a token whose signature does not verify against the resolved
key is rejected by the `jwt.decode` step (surfacing through the catch-all as
the 401 wrapping the signature failure), the issuer and audience checks
never run, and no decoded claim set is ever returned. -/
theorem invalid_signature_rejected_before_claims
    (settings : Settings) (tok : TokenModel) (keys : List JWK)
    (header : UnverifiedHeader) (hkid : String) (key : JWK)
    (ht : isBlank settings.tenant_id = false)
    (hc : isBlank settings.client_id = false)
    (hh : tok.header = .ok header)
    (hk : header.kid = some hkid)
    (hfind : find_key hkid keys = some key)
    (hsig : tok.sigOK key.kid = false) :
    (validate_microsoft_token settings tok (.ok keys)).2
      = .error (.tokenValidationFailed "bad_signature")
    ∧ status_code (.tokenValidationFailed "bad_signature") = 401
    ∧ Ev.issuerChecked ∉ (validate_microsoft_token settings tok (.ok keys)).1
    ∧ Ev.audienceChecked ∉ (validate_microsoft_token settings tok (.ok keys)).1
    ∧ ∀ claims : Claims,
        (validate_microsoft_token settings tok (.ok keys)).2 ≠ .ok claims := by
  have hv : validate_microsoft_token settings tok (.ok keys)
      = ([.jwksFetched, .keyResolved key.kid],
         .error (.tokenValidationFailed "bad_signature")) := by
    unfold validate_microsoft_token
    simp only [ht, hc, Bool.or_self, hh, hk, hfind, jose_decode, hsig]
    rw [if_neg Bool.false_ne_true, if_neg Bool.false_ne_true]
  rw [hv]
  refine ⟨rfl, rfl, ?_, ?_, ?_⟩ <;> simp

/-- Witness for C2: the concrete tampered token against the concrete key
set is rejected with the signature failure and no claim check runs. -/
theorem invalid_signature_rejected_before_claims_witness :
    (validate_microsoft_token goodSettings tamperedToken (.ok [goodKey])).2
      = .error (.tokenValidationFailed "bad_signature")
    ∧ status_code (.tokenValidationFailed "bad_signature") = 401
    ∧ Ev.issuerChecked ∉ (validate_microsoft_token goodSettings tamperedToken (.ok [goodKey])).1
    ∧ Ev.audienceChecked ∉ (validate_microsoft_token goodSettings tamperedToken (.ok [goodKey])).1
    ∧ ∀ claims : Claims,
        (validate_microsoft_token goodSettings tamperedToken (.ok [goodKey])).2 ≠ .ok claims :=
  invalid_signature_rejected_before_claims goodSettings tamperedToken [goodKey]
    goodHeader "k1" goodKey rfl rfl rfl rfl rfl rfl

/-- Claim C5: a token whose `kid` matches no key in the freshly fetched key
set is rejected with the 401 "Invalid token key" rejection; the trace shows
exactly one JWKS fetch for that token (no retry) and signature verification
is never attempted (no key is ever resolved). -/
theorem unknown_kid_rejected_single_fetch
    (settings : Settings) (tok : TokenModel) (keys : List JWK)
    (header : UnverifiedHeader) (hkid : String)
    (ht : isBlank settings.tenant_id = false)
    (hc : isBlank settings.client_id = false)
    (hh : tok.header = .ok header)
    (hk : header.kid = some hkid)
    (hfind : find_key hkid keys = none) :
    (validate_microsoft_token settings tok (.ok keys)).2 = .error .invalidTokenKey
    ∧ status_code .invalidTokenKey = 401
    ∧ (validate_microsoft_token settings tok (.ok keys)).1.count .jwksFetched = 1
    ∧ Ev.signatureVerified ∉ (validate_microsoft_token settings tok (.ok keys)).1
    ∧ ∀ kid : String,
        Ev.keyResolved kid ∉ (validate_microsoft_token settings tok (.ok keys)).1 := by
  have hv : validate_microsoft_token settings tok (.ok keys)
      = ([.jwksFetched], .error .invalidTokenKey) := by
    unfold validate_microsoft_token
    simp only [ht, hc, Bool.or_self, hh, hk, hfind]
    rw [if_neg Bool.false_ne_true]
  rw [hv]
  refine ⟨rfl, rfl, rfl, ?_, ?_⟩ <;> simp

/-- Witness for C5: the concrete token naming the absent kid "nope" against
the key set holding only "k1". -/
theorem unknown_kid_rejected_single_fetch_witness :
    (validate_microsoft_token goodSettings unknownKidToken (.ok [goodKey])).2
      = .error .invalidTokenKey
    ∧ status_code .invalidTokenKey = 401
    ∧ (validate_microsoft_token goodSettings unknownKidToken (.ok [goodKey])).1.count
        .jwksFetched = 1
    ∧ Ev.signatureVerified ∉ (validate_microsoft_token goodSettings unknownKidToken
        (.ok [goodKey])).1
    ∧ ∀ kid : String,
        Ev.keyResolved kid ∉ (validate_microsoft_token goodSettings unknownKidToken
          (.ok [goodKey])).1 :=
  unknown_kid_rejected_single_fetch goodSettings unknownKidToken [goodKey]
    unknownKidHeader "nope" rfl rfl rfl rfl rfl

/-- Counterexample to C7 as stated: with both environment variables absent,
startup succeeds — `get_settings` returns normally, there is no failure
path — and it is a validation call that first reports the missing
configuration, as a per-request HTTP 500. -/
theorem config_missing_not_startup_fatal :
    get_settings none none = { tenant_id := none, client_id := none }
    ∧ (validate_microsoft_token (get_settings none none) goodToken (.ok [goodKey])).2
        = .error .configurationMissing
    ∧ status_code .configurationMissing = 500 :=
  ⟨rfl, rfl, rfl⟩

/-- Claim C7 amended: a missing (or empty) tenant id or client id is
reported per-request: every validation call then fails with the HTTP 500
"Azure configuration missing" rejection before any token processing or
network fetch (the event trace is empty); the process itself starts
normally. -/
theorem config_missing_is_per_request_error
    (settings : Settings) (tok : TokenModel) (fetchResult : Except String (List JWK))
    (h : isBlank settings.tenant_id = true ∨ isBlank settings.client_id = true) :
    validate_microsoft_token settings tok fetchResult
      = ([], .error .configurationMissing)
    ∧ status_code .configurationMissing = 500
    ∧ detail .configurationMissing = "Azure configuration missing" := by
  refine ⟨?_, rfl, rfl⟩
  unfold validate_microsoft_token
  rcases h with h | h <;> simp [h]

/-- Witness for the amended C7: with an empty tenant id the validation call
itself returns the 500 configuration error and performs no pipeline step. -/
theorem config_missing_is_per_request_error_witness :
    validate_microsoft_token (get_settings (some "") (some "abc123")) goodToken
        (.ok [goodKey])
      = ([], .error .configurationMissing)
    ∧ status_code .configurationMissing = 500
    ∧ detail .configurationMissing = "Azure configuration missing" :=
  config_missing_is_per_request_error (get_settings (some "") (some "abc123"))
    goodToken (.ok [goodKey]) (Or.inl rfl)

/-- Claim C8: the claim says client-facing error messages never contain the
raw claim values of the token nor the expected configured values.  The code
does the opposite: the `detail` field of the `HTTPException` — the response
body sent to the client — interpolates the actual issuer/audience and the
expected values.  This theorem runs the pipeline on a token with a foreign
issuer and exhibits the client-facing detail string as the literal
concatenation containing the raw token issuer and both expected issuer
strings (and likewise for the audience detail). -/
theorem rejection_detail_leaks_claim_values :
    (validate_microsoft_token goodSettings evilIssuerToken (.ok [goodKey])).2
      = .error (.invalidIssuer (some "https://evil.example/") "tid")
    ∧ detail (.invalidIssuer (some "https://evil.example/") "tid")
      = "Invalid token issuer. Got: " ++ "https://evil.example/" ++ ", Expected: "
          ++ expected_issuer_v1 "tid" ++ " or " ++ expected_issuer_v2 "tid"
    ∧ detail (.invalidAudience (some "abc123") "abc1234")
      = "Invalid token audience. Got: " ++ "abc123" ++ ", Expected: " ++ "abc1234" :=
  ⟨rfl, rfl, rfl⟩

/-- Claim C9: the claim says every JWKS fetch carries a bounded request
timeout.  The call at line 94 is `requests.get(jwks_url)` with no `timeout`
argument, so the `requests` default of no timeout applies: for every tenant
the issued call carries no timeout at all. -/
theorem jwks_fetch_has_no_timeout :
    ∀ tenant_id : String, (jwks_fetch_call tenant_id).timeout = none :=
  fun _ => rfl

/-- Claim C3: once the pipeline reaches the issuer check, the token is
rejected with the issuer rejection exactly when its issuer claim differs
from both enumerated tenant issuer strings (the v1 and the v2 form built
from the tenant id); in particular every issuer string whose length differs
from both — which covers every proper prefix and every proper suffix of a
valid issuer — is rejected. -/
theorem issuer_check_exact_enumeration
    (settings : Settings) (tok : TokenModel) (keys : List JWK)
    (tenant_id client_id : String) (header : UnverifiedHeader)
    (hkid : String) (key : JWK)
    (ht : settings.tenant_id = some tenant_id) (htn : tenant_id.isEmpty = false)
    (hc : settings.client_id = some client_id) (hcn : client_id.isEmpty = false)
    (hh : tok.header = .ok header)
    (hk : header.kid = some hkid)
    (hfind : find_key hkid keys = some key)
    (hsig : tok.sigOK key.kid = true) :
    ((validate_microsoft_token settings tok (.ok keys)).2
        = .error (.invalidIssuer tok.claims.iss tenant_id)
      ↔ (tok.claims.iss ≠ some (expected_issuer_v1 tenant_id)
          ∧ tok.claims.iss ≠ some (expected_issuer_v2 tenant_id)))
    ∧ (∀ s : String, tok.claims.iss = some s →
        s.length ≠ (expected_issuer_v1 tenant_id).length →
        s.length ≠ (expected_issuer_v2 tenant_id).length →
        (validate_microsoft_token settings tok (.ok keys)).2
          = .error (.invalidIssuer (some s) tenant_id)) := by
  rw [validate_reaches_claim_checks settings tok keys tenant_id client_id header
    hkid key ht htn hc hcn hh hk hfind hsig]
  cases hB : (tok.claims.iss == some (expected_issuer_v1 tenant_id)
      || tok.claims.iss == some (expected_issuer_v2 tenant_id)) with
  | false =>
    simp only [hB, Bool.not_false, if_pos rfl]
    simp only [Bool.or_eq_false_iff, beq_eq_false_iff_ne, ne_eq] at hB
    refine ⟨⟨fun _ => ⟨hB.1, hB.2⟩, fun _ => rfl⟩, ?_⟩
    intro s hs _ _
    rw [hs]
    rfl
  | true =>
    simp only [hB, Bool.not_true, if_neg Bool.false_ne_true]
    simp only [Bool.or_eq_true, beq_iff_eq] at hB
    constructor
    · constructor
      · intro hres
        exfalso
        by_cases haud : (tok.claims.aud != some client_id) = true
        · rw [if_pos haud] at hres
          exact absurd hres (by simp)
        · rw [if_neg haud] at hres
          exact absurd hres (by simp)
      · intro hne
        exfalso
        rcases hB with h | h
        · exact hne.1 h
        · exact hne.2 h
    · intro s hs hl1 hl2
      exfalso
      rcases hB with h | h
      · rw [hs] at h
        exact hl1 (by rw [Option.some.inj h])
      · rw [hs] at h
        exact hl2 (by rw [Option.some.inj h])

/-- Witness for C3: for tenant "tid" the string
"https://sts.windows.net/tid" — a proper prefix of the valid v1 issuer,
missing only its trailing slash — is rejected with the issuer rejection. -/
theorem issuer_check_exact_enumeration_witness :
    ("https://sts.windows.net/tid" : String).length
        ≠ (expected_issuer_v1 "tid").length
    ∧ (validate_microsoft_token goodSettings
        (mkToken { goodClaims with iss := some "https://sts.windows.net/tid" } true)
        (.ok [goodKey])).2
      = .error (.invalidIssuer (some "https://sts.windows.net/tid") "tid") := by
  refine ⟨by decide, ?_⟩
  exact (issuer_check_exact_enumeration goodSettings
      (mkToken { goodClaims with iss := some "https://sts.windows.net/tid" } true)
      [goodKey] "tid" "abc123" goodHeader "k1" goodKey
      rfl rfl rfl rfl rfl rfl rfl rfl).2
    "https://sts.windows.net/tid" rfl (by decide) (by decide)

/-- Claim C4: once the pipeline reaches the audience check, the token is
accepted exactly when its audience claim equals the configured client id
(exact, case-sensitive string equality); any other audience — including a
missing one — yields the audience rejection carrying the mismatching
values. -/
theorem audience_check_exact_match
    (settings : Settings) (tok : TokenModel) (keys : List JWK)
    (tenant_id client_id : String) (header : UnverifiedHeader)
    (hkid : String) (key : JWK)
    (ht : settings.tenant_id = some tenant_id) (htn : tenant_id.isEmpty = false)
    (hc : settings.client_id = some client_id) (hcn : client_id.isEmpty = false)
    (hh : tok.header = .ok header)
    (hk : header.kid = some hkid)
    (hfind : find_key hkid keys = some key)
    (hsig : tok.sigOK key.kid = true)
    (hiss : tok.claims.iss = some (expected_issuer_v1 tenant_id)
            ∨ tok.claims.iss = some (expected_issuer_v2 tenant_id)) :
    ((validate_microsoft_token settings tok (.ok keys)).2 = .ok tok.claims
      ↔ tok.claims.aud = some client_id)
    ∧ (tok.claims.aud ≠ some client_id →
        (validate_microsoft_token settings tok (.ok keys)).2
          = .error (.invalidAudience tok.claims.aud client_id)) := by
  rw [validate_reaches_claim_checks settings tok keys tenant_id client_id header
    hkid key ht htn hc hcn hh hk hfind hsig]
  have hBiss : (tok.claims.iss == some (expected_issuer_v1 tenant_id)
      || tok.claims.iss == some (expected_issuer_v2 tenant_id)) = true := by
    rcases hiss with h | h <;> simp [h]
  simp only [hBiss, Bool.not_true, if_neg Bool.false_ne_true]
  by_cases haud : tok.claims.aud = some client_id
  · have : (tok.claims.aud != some client_id) = false := by simp [haud]
    rw [if_neg (this ▸ Bool.false_ne_true)]
    exact ⟨⟨fun _ => haud, fun _ => rfl⟩, fun hne => absurd haud hne⟩
  · have : (tok.claims.aud != some client_id) = true := by simp [haud]
    rw [if_pos this]
    exact ⟨⟨fun h => absurd h (by simp), fun h => absurd h haud⟩, fun _ => rfl⟩

/-- Witness for C4: the token with audience "abc123" is accepted when the
configured client id is "abc123" and rejected with the audience rejection
when the configured client id is "abc1234". -/
theorem audience_check_exact_match_witness :
    (validate_microsoft_token goodSettings goodToken (.ok [goodKey])).2 = .ok goodClaims
    ∧ (validate_microsoft_token (get_settings (some "tid") (some "abc1234")) goodToken
        (.ok [goodKey])).2
      = .error (.invalidAudience (some "abc123") "abc1234") := by
  constructor
  · exact (audience_check_exact_match goodSettings goodToken [goodKey] "tid" "abc123"
      goodHeader "k1" goodKey rfl rfl rfl rfl rfl rfl rfl rfl (Or.inr rfl)).1.mpr rfl
  · exact (audience_check_exact_match (get_settings (some "tid") (some "abc1234"))
      goodToken [goodKey] "tid" "abc1234" goodHeader "k1" goodKey
      rfl rfl rfl rfl rfl rfl rfl rfl (Or.inr rfl)).2 (by decide)

/-- Claim C10: for every validation call that succeeds with a claim set
lacking the "name" and "email" claims, the protected hello-world endpoint
still returns the success response with `authenticated = true`,
substituting "Unknown User" and "No email" for the missing claims. -/
theorem hello_world_defaults_missing_claims
    (settings : Settings) (tok : TokenModel) (fetchResult : Except String (List JWK))
    (claims : Claims)
    (_hok : (validate_microsoft_token settings tok fetchResult).2 = .ok claims)
    (hname : claims.name = none) (hemail : claims.email = none) :
    hello_world claims
      = { message := "Hello, World!"
        , user := { name := "Unknown User", email := "No email" }
        , authenticated := true } := by
  simp [hello_world, hname, hemail]

/-- A validated claim set carrying no "name" and no "email" claim. -/
def anonymousClaims : Claims :=
  { iss := some (expected_issuer_v2 "tid"), aud := some "abc123"
  , exp := some 1893456000, name := none, email := none }

/-- A valid token for `goodSettings` whose claim set is `anonymousClaims`. -/
def anonymousToken : TokenModel := mkToken anonymousClaims true

/-- Witness for C10: the concrete nameless token validates and the endpoint
answers with the two defaults and `authenticated = true`. -/
theorem hello_world_defaults_missing_claims_witness :
    hello_world anonymousClaims
      = { message := "Hello, World!"
        , user := { name := "Unknown User", email := "No email" }
        , authenticated := true } :=
  hello_world_defaults_missing_claims goodSettings anonymousToken (.ok [goodKey])
    anonymousClaims rfl rfl rfl

end AuthBackend
